import Mathlib

set_option maxHeartbeats 1000000

/-!
Verification development for the `indite` repository: an OpenXR + wgpu stereo
VR example.  The definitions below shallowly embed the frame loop
(`crates/example/src/main.rs`, `crates/example/src/rendering.rs`), the
instance-creation version check (`crates/indite/src/context.rs`), the
swapchain/texture bridging (`crates/indite/src/swapchain.rs`) and the pose /
projection math (`crates/example/src/math.rs`).
-/

namespace Indite

/-! ## Frame-loop call traces

`render_frame` in `crates/example/src/rendering.rs` performs a fixed sequence
of native calls each frame.  We model each observable call as an event and the
function as the trace of events it performs. -/

inductive Call where
  | waitFrame
  | frameBegin
  | frameEnd (layerCount : Nat)
  | lockSwapchain
  | unlockSwapchain
  | acquireImage
  | waitImage
  | releaseImage
  | queueSubmit (bufferCount : Nat)
  | syncActions
  | locateSpace
  | locateViews
  | createUniformBindGroup
  | recordCommandBuffer
  | writeUniformBuffer
  deriving DecidableEq

/-- `openxr::FrameState` as used by the loop: the predicted display time and
the `should_render` flag. -/
structure FrameState where
  predictedDisplayTime : Int
  shouldRender : Bool
  deriving DecidableEq

/-- Trace of native calls performed by `render_frame`
(`crates/example/src/rendering.rs`, lines 134-225).  The swapchain mutex is
locked once for `acquire_image` (a temporary guard dropped at the end of the
statement) and once more for the `wait_image` / `submit` / `release_image` /
`end_frame` span (the guard lives until the function returns). -/
def render_frame (xrFrameState : FrameState) : List Call :=
  [Call.waitFrame, Call.frameBegin] ++
    (if !xrFrameState.shouldRender then
      [Call.frameEnd 0]
    else
      [Call.lockSwapchain, Call.acquireImage, Call.unlockSwapchain,
       Call.createUniformBindGroup, Call.recordCommandBuffer,
       Call.syncActions, Call.locateSpace, Call.locateSpace,
       Call.locateViews, Call.writeUniformBuffer,
       Call.lockSwapchain, Call.waitImage, Call.queueSubmit 1,
       Call.releaseImage, Call.frameEnd 1, Call.unlockSwapchain])

/-! ### Trace analysis helpers -/

/-- Index of the first event satisfying `p` (length of the list if none). -/
def firstIdx (p : Call → Bool) : List Call → Nat
  | [] => 0
  | c :: rest => if p c then 0 else firstIdx p rest + 1

/-- The events strictly between positions `a` and `b`. -/
def strictlyBetween (t : List Call) (a b : Nat) : List Call :=
  (t.take b).drop (a + 1)

/-- Does an event satisfying `p` occur strictly between positions `a` and `b`? -/
def hasCallBetween (t : List Call) (p : Call → Bool) (a b : Nat) : Bool :=
  (strictlyBetween t a b).any p

/-- +1 for a mutex lock, -1 for an unlock, 0 otherwise. -/
def lockDelta : Call → Int
  | Call.lockSwapchain => 1
  | Call.unlockSwapchain => -1
  | _ => 0

/-- Mutex lock depth after the first `n` events of the trace. -/
def lockDepthAfter (t : List Call) (n : Nat) : Int :=
  ((t.take n).map lockDelta).sum

/-- Is the mutex held at every point after position `a` up to and including
position `b`? -/
def heldThrough (t : List Call) (a b : Nat) : Bool :=
  ((List.range (t.length + 1)).filter (fun n => a < n && n ≤ b)).all
    (fun n => decide (0 < lockDepthAfter t n))

/-- Number of `frameEnd` events (any layer count). -/
def frameEndCount (t : List Call) : Nat :=
  (t.filter (fun c => match c with | Call.frameEnd _ => true | _ => false)).length

/-- Number of `queueSubmit` events (any buffer count). -/
def queueSubmitCount (t : List Call) : Nat :=
  (t.filter (fun c => match c with | Call.queueSubmit _ => true | _ => false)).length

/-! ## The main loop (`crates/example/src/main.rs`, `run_session`)

Errors from native calls: the loop `unwrap`s every result (aborting the
process) except the `request_exit` call, whose
`ERROR_SESSION_NOT_RUNNING` case breaks the loop normally. -/

inductive XrErr where
  | sessionNotRunning
  | other (code : Int)
  deriving DecidableEq

inductive LoopAction where
  | continueLoop
  | breakLoop
  | abortProcess
  deriving DecidableEq

/-- The ctrl-c check at the top of the loop (`main.rs` lines 281-292):
if the interrupt flag is set, `session.request_exit()` is called and its
result matched. -/
def ctrlcCheck (requestExitRes : Except XrErr Unit) (ctrlcRequestExit : Bool) :
    LoopAction :=
  if ctrlcRequestExit then
    match requestExitRes with
    | Except.ok _ => LoopAction.continueLoop
    | Except.error XrErr.sessionNotRunning => LoopAction.breakLoop
    | Except.error _ => LoopAction.abortProcess
  else LoopAction.continueLoop

/-- `openxr::SessionState`: a raw integer with named constants (the event
match in `main.rs` has a wildcard arm, so arbitrary values must be
representable). -/
structure SessionState where
  raw : Int
  deriving DecidableEq

def SessionState.UNKNOWN : SessionState := ⟨0⟩
def SessionState.IDLE : SessionState := ⟨1⟩
def SessionState.READY : SessionState := ⟨2⟩
def SessionState.SYNCHRONIZED : SessionState := ⟨3⟩
def SessionState.VISIBLE : SessionState := ⟨4⟩
def SessionState.FOCUSED : SessionState := ⟨5⟩
def SessionState.STOPPING : SessionState := ⟨6⟩
def SessionState.LOSS_PENDING : SessionState := ⟨7⟩
def SessionState.EXITING : SessionState := ⟨8⟩

inductive XrEvent where
  | sessionStateChanged (state : SessionState)
  | instanceLossPending
  | eventsLost (lostEventCount : Nat)
  | otherEvent
  deriving DecidableEq

inductive SessionCall where
  | sessionBegin
  | sessionEnd
  deriving DecidableEq

structure EventOutcome where
  running : Bool
  action : LoopAction
  calls : List SessionCall
  deriving DecidableEq

/-- Processing of one polled event (`main.rs` lines 294-324).
`beginRes` / `endRes` are the results of `session.begin()` / `session.end()`
(which are `unwrap`ed, so an error aborts the process). -/
def processEvent (beginRes endRes : Except XrErr Unit) (sessionRunning : Bool) :
    XrEvent → EventOutcome
  | XrEvent.sessionStateChanged s =>
    if s = SessionState.READY then
      match beginRes with
      | Except.ok _ => ⟨true, LoopAction.continueLoop, [SessionCall.sessionBegin]⟩
      | Except.error _ => ⟨sessionRunning, LoopAction.abortProcess, [SessionCall.sessionBegin]⟩
    else if s = SessionState.STOPPING then
      match endRes with
      | Except.ok _ => ⟨false, LoopAction.continueLoop, [SessionCall.sessionEnd]⟩
      | Except.error _ => ⟨sessionRunning, LoopAction.abortProcess, [SessionCall.sessionEnd]⟩
    else if s = SessionState.EXITING ∨ s = SessionState.LOSS_PENDING then
      ⟨sessionRunning, LoopAction.breakLoop, []⟩
    else
      ⟨sessionRunning, LoopAction.continueLoop, []⟩
  | XrEvent.instanceLossPending => ⟨sessionRunning, LoopAction.breakLoop, []⟩
  | XrEvent.eventsLost _ => ⟨sessionRunning, LoopAction.continueLoop, []⟩
  | XrEvent.otherEvent => ⟨sessionRunning, LoopAction.continueLoop, []⟩

/-- Results of the native calls made by the frame portion of the loop, in
program order.  Each is `unwrap`ed by the code. -/
structure FrameCalls where
  waitFrameRes : Except XrErr FrameState
  frameBeginRes : Except XrErr Unit
  acquireRes : Except XrErr Nat
  syncActionsRes : Except XrErr Unit
  locateLeftRes : Except XrErr Unit
  locateRightRes : Except XrErr Unit
  locateViewsRes : Except XrErr Unit
  waitImageRes : Except XrErr Unit
  releaseRes : Except XrErr Unit
  frameEndRes : Except XrErr Unit

/-- The frame portion of one loop iteration (`main.rs` lines 335-437),
threading the fallibility of each native call: any error aborts the process
(all results are `unwrap`ed), otherwise the iteration continues. -/
def frameStage (o : FrameCalls) : LoopAction :=
  match o.waitFrameRes with
  | Except.error _ => LoopAction.abortProcess
  | Except.ok fs =>
    match o.frameBeginRes with
    | Except.error _ => LoopAction.abortProcess
    | Except.ok _ =>
      if !fs.shouldRender then
        match o.frameEndRes with
        | Except.error _ => LoopAction.abortProcess
        | Except.ok _ => LoopAction.continueLoop
      else
        match o.acquireRes with
        | Except.error _ => LoopAction.abortProcess
        | Except.ok _ =>
          match o.syncActionsRes with
          | Except.error _ => LoopAction.abortProcess
          | Except.ok _ =>
            match o.locateLeftRes with
            | Except.error _ => LoopAction.abortProcess
            | Except.ok _ =>
              match o.locateRightRes with
              | Except.error _ => LoopAction.abortProcess
              | Except.ok _ =>
                match o.locateViewsRes with
                | Except.error _ => LoopAction.abortProcess
                | Except.ok _ =>
                  match o.waitImageRes with
                  | Except.error _ => LoopAction.abortProcess
                  | Except.ok _ =>
                    match o.releaseRes with
                    | Except.error _ => LoopAction.abortProcess
                    | Except.ok _ =>
                      match o.frameEndRes with
                      | Except.error _ => LoopAction.abortProcess
                      | Except.ok _ => LoopAction.continueLoop

/-! ## Instance creation and the Vulkan version check
(`crates/indite/src/context.rs`, `create_instance`, lines 11-39) -/

/-- `openxr::Version`: 16-bit major, 16-bit minor, 32-bit patch, ordered by
the packed 64-bit value. -/
structure Version where
  major : Nat
  minor : Nat
  patch : Nat
  deriving DecidableEq

/-- The packed 64-bit representation, which `openxr::Version` compares by. -/
def Version.raw (v : Version) : Nat :=
  v.major * 2 ^ 48 + v.minor * 2 ^ 32 + v.patch

structure GraphicsRequirements where
  minApiVersionSupported : Version
  maxApiVersionSupported : Version
  deriving DecidableEq

/-- `context.rs` line 17: `let vk_target_version_xr = openxr::Version::new(1, 2, 0)`. -/
def vkTargetVersionXr : Version := ⟨1, 2, 0⟩

inductive InstanceStep where
  | queryGraphicsRequirements
  | loadVulkanEntry
  | createVulkanInstance
  | wrapHalInstance
  deriving DecidableEq

def isErr {α : Type} : Except String α → Bool
  | Except.ok _ => false
  | Except.error _ => true

/-- `create_instance` (`context.rs` lines 11-39): query the graphics
requirements first, then bail iff
`vk_target_version_xr < reqs.min_api_version_supported ||
 vk_target_version_xr.major() > reqs.max_api_version_supported.major()`,
otherwise load the Vulkan entry, create the instance through the runtime and
wrap it.  Returns the steps performed together with the result. -/
def create_instance (reqs : GraphicsRequirements) :
    List InstanceStep × Except String Unit :=
  if vkTargetVersionXr.raw < reqs.minApiVersionSupported.raw
      ∨ reqs.maxApiVersionSupported.major < vkTargetVersionXr.major then
    ([InstanceStep.queryGraphicsRequirements],
     Except.error "openxr runtime requires vulkan version out of supported range")
  else
    ([InstanceStep.queryGraphicsRequirements, InstanceStep.loadVulkanEntry,
      InstanceStep.createVulkanInstance, InstanceStep.wrapHalInstance],
     Except.ok ())

/-! ## Swapchain creation and texture wrapping
(`crates/indite/src/swapchain.rs`) -/

structure SwapchainDescriptor where
  width : Nat
  height : Nat
  viewCount : Nat
  deriving DecidableEq

/-- Raw value of `vk::Format::R8G8B8A8_SRGB`. -/
def R8G8B8A8_SRGB : Nat := 43

/-- The `openxr::SwapchainCreateInfo` built by `create_swapchain`
(`swapchain.rs` lines 32-43). -/
structure SwapchainCreateInfo where
  usageColorAttachment : Bool
  usageSampled : Bool
  format : Nat
  sampleCount : Nat
  width : Nat
  height : Nat
  faceCount : Nat
  arraySize : Nat
  mipCount : Nat
  deriving DecidableEq

/-- The observable shape of a wgpu texture wrapped around a runtime-owned
swapchain image by `create_swapchain_texture` (`swapchain.rs` lines 97-153):
a raw-handle import (`texture_from_raw`) with a drop callback that owns a
clone of the shared swapchain handle, so wgpu never takes ownership of the
image. -/
structure TextureModel where
  rawImage : Nat
  width : Nat
  height : Nat
  depthOrArrayLayers : Nat
  mipLevelCount : Nat
  sampleCount : Nat
  hasDropCallback : Bool
  dropCallbackHoldsSwapchainHandle : Bool
  wgpuOwnsImage : Bool
  deriving DecidableEq

inductive ViewDimension where
  | d1
  | d2
  | d2Array
  | cube
  | cubeArray
  | d3
  deriving DecidableEq

structure TextureViewModel where
  dimension : Option ViewDimension
  arrayLayerCount : Option Nat
  deriving DecidableEq

/-- `create_swapchain_texture` (`swapchain.rs` lines 97-153). -/
def create_swapchain_texture (desc : SwapchainDescriptor) (colorImage : Nat) :
    TextureModel :=
  { rawImage := colorImage
    width := desc.width
    height := desc.height
    depthOrArrayLayers := desc.viewCount
    mipLevelCount := 1
    sampleCount := 1
    hasDropCallback := true
    dropCallbackHoldsSwapchainHandle := true
    wgpuOwnsImage := false }

/-- `create_swapchain_textures` (`swapchain.rs` lines 52-91): one
`(Texture, TextureView)` pair per enumerated image, in enumeration order;
each view is a `D2Array` view with `array_layer_count` equal to the
descriptor's `view_count`. -/
def create_swapchain_textures (desc : SwapchainDescriptor)
    (swapchainImages : List Nat) : List (TextureModel × TextureViewModel) :=
  swapchainImages.map (fun colorImage =>
    (create_swapchain_texture desc colorImage,
     { dimension := some ViewDimension.d2Array
       arrayLayerCount := some desc.viewCount }))

/-- `create_swapchain` (`swapchain.rs` lines 23-50): builds the
`SwapchainCreateInfo`, creates the runtime swapchain, and wraps each of its
enumerated images.  `swapchainImages` is the image list returned by the
runtime's `enumerate_images`. -/
def create_swapchain (desc : SwapchainDescriptor) (swapchainImages : List Nat) :
    SwapchainCreateInfo × List (TextureModel × TextureViewModel) :=
  ({ usageColorAttachment := true
     usageSampled := true
     format := R8G8B8A8_SRGB
     sampleCount := 1
     width := desc.width
     height := desc.height
     faceCount := 1
     arraySize := desc.viewCount
     mipCount := 1 },
   create_swapchain_textures desc swapchainImages)

/-! ## Reference-counted lifetime of the swapchain handle

`create_swapchain` wraps the runtime swapchain in an `Arc<Mutex<..>>` and
clones that `Arc` into each texture's drop callback.  The state machine below
embeds the `Arc` strong-count semantics: the caller's handle contributes one
reference and every live texture contributes one; the underlying swapchain is
freed exactly when the strong count reaches zero. -/

structure ArcState where
  strongCount : Nat
  callerHandleHeld : Bool
  liveTextures : Nat
  swapchainFreed : Bool
  deriving DecidableEq

/-- State right after `create_swapchain` returns with `imageCount` wrapped
textures: `Arc::new` contributes 1 (the caller's handle) and each texture's
drop callback holds a clone. -/
def initialArcState (imageCount : Nat) : ArcState :=
  ⟨1 + imageCount, true, imageCount, false⟩

/-- A drop step: dropping a texture runs its drop callback (dropping its
`Arc` clone), and dropping the caller's handle drops the original `Arc`.
Either way the strong count decrements, and the underlying swapchain is freed
when it reaches zero. -/
inductive ArcStep : ArcState → ArcState → Prop where
  | dropTexture (s : ArcState) (h : 0 < s.liveTextures) :
      ArcStep s ⟨s.strongCount - 1, s.callerHandleHeld, s.liveTextures - 1,
                 s.swapchainFreed || decide (s.strongCount - 1 = 0)⟩
  | dropCallerHandle (s : ArcState) (h : s.callerHandleHeld = true) :
      ArcStep s ⟨s.strongCount - 1, false, s.liveTextures,
                 s.swapchainFreed || decide (s.strongCount - 1 = 0)⟩

/-- States reachable from the post-`create_swapchain` state by any
interleaving of texture drops and the caller-handle drop. -/
inductive ReachableArc (imageCount : Nat) : ArcState → Prop where
  | init : ReachableArc imageCount (initialArcState imageCount)
  | step {s t : ArcState} : ReachableArc imageCount s → ArcStep s t →
      ReachableArc imageCount t

/-! ## Pose and projection math (`crates/example/src/math.rs`)

Floating-point arithmetic is modelled over the reals.  The glam operations
used by `math.rs` (`Quat`, `Mat3`, `Mat4`, `Affine3A`) are embedded with
glam's own formulas. -/

structure V3 where
  x : ℝ
  y : ℝ
  z : ℝ

structure V4 where
  x : ℝ
  y : ℝ
  z : ℝ
  w : ℝ

structure Quat where
  x : ℝ
  y : ℝ
  z : ℝ
  w : ℝ

def Quat.from_xyzw (x y z w : ℝ) : Quat := ⟨x, y, z, w⟩

def Quat.lengthSquared (q : Quat) : ℝ :=
  q.x * q.x + q.y * q.y + q.z * q.z + q.w * q.w

noncomputable def Quat.length (q : Quat) : ℝ := Real.sqrt q.lengthSquared

def Quat.IDENTITY : Quat := ⟨0, 0, 0, 1⟩

/-- `glam::Quat::is_normalized`: `math::abs(self.length_squared() - 1.0) <= 2e-4`. -/
def Quat.isNormalized (q : Quat) : Prop := |q.lengthSquared - 1| ≤ 2e-4

/-- `glam::Quat::normalize`: `self * self.length_recip()`. -/
noncomputable def Quat.normalize (q : Quat) : Quat :=
  ⟨q.x / q.length, q.y / q.length, q.z / q.length, q.w / q.length⟩

structure Posef where
  orientation : Quat
  position : V3

def Posef.IDENTITY : Posef := ⟨Quat.IDENTITY, ⟨0, 0, 0⟩⟩

/-- `openxr::Fovf` (all four angles, radians). -/
structure Fovf where
  angleLeft : ℝ
  angleRight : ℝ
  angleUp : ℝ
  angleDown : ℝ

structure View where
  pose : Posef
  fov : Fovf

section
open Classical

/-- `openxr_pose_to_glam` (`math.rs` lines 10-33): a zero-length orientation
quaternion is replaced with the identity, then the quaternion is normalized
unless it already is. -/
noncomputable def openxr_pose_to_glam (pose : Posef) : V3 × Quat :=
  let rotation :=
    let quat := Quat.from_xyzw pose.orientation.x pose.orientation.y
      pose.orientation.z pose.orientation.w
    let quat := if quat.length = 0 then Quat.IDENTITY else quat
    let quat := if quat.isNormalized then quat else quat.normalize
    quat
  let translation : V3 := ⟨pose.position.x, pose.position.y, pose.position.z⟩
  (translation, rotation)

end

def V3.cross (a b : V3) : V3 :=
  ⟨a.y * b.z - a.z * b.y, a.z * b.x - a.x * b.z, a.x * b.y - a.y * b.x⟩

def V3.dot (a b : V3) : ℝ := a.x * b.x + a.y * b.y + a.z * b.z

noncomputable def V3.smul (a : V3) (s : ℝ) : V3 := ⟨a.x * s, a.y * s, a.z * s⟩

noncomputable def V3.add (a b : V3) : V3 := ⟨a.x + b.x, a.y + b.y, a.z + b.z⟩

def V3.neg (a : V3) : V3 := ⟨-a.x, -a.y, -a.z⟩

structure M3 where
  xAxis : V3
  yAxis : V3
  zAxis : V3

/-- `glam::Mat3::from_quat`. -/
noncomputable def M3.from_quat (rotation : Quat) : M3 :=
  let x2 := rotation.x + rotation.x
  let y2 := rotation.y + rotation.y
  let z2 := rotation.z + rotation.z
  let xx := rotation.x * x2
  let xy := rotation.x * y2
  let xz := rotation.x * z2
  let yy := rotation.y * y2
  let yz := rotation.y * z2
  let zz := rotation.z * z2
  let wx := rotation.w * x2
  let wy := rotation.w * y2
  let wz := rotation.w * z2
  ⟨⟨1 - (yy + zz), xy + wz, xz - wy⟩,
   ⟨xy - wz, 1 - (xx + zz), yz + wx⟩,
   ⟨xz + wy, yz - wx, 1 - (xx + yy)⟩⟩

def M3.transpose (m : M3) : M3 :=
  ⟨⟨m.xAxis.x, m.yAxis.x, m.zAxis.x⟩,
   ⟨m.xAxis.y, m.yAxis.y, m.zAxis.y⟩,
   ⟨m.xAxis.z, m.yAxis.z, m.zAxis.z⟩⟩

/-- `glam::Mat3::inverse` (cross-product / determinant formula). -/
noncomputable def M3.inverse (m : M3) : M3 :=
  let tmp0 := m.yAxis.cross m.zAxis
  let tmp1 := m.zAxis.cross m.xAxis
  let tmp2 := m.xAxis.cross m.yAxis
  let det := m.zAxis.dot tmp2
  let invDet := det⁻¹
  (M3.mk (tmp0.smul invDet) (tmp1.smul invDet) (tmp2.smul invDet)).transpose

noncomputable def M3.mulVec (m : M3) (v : V3) : V3 :=
  ((m.xAxis.smul v.x).add (m.yAxis.smul v.y)).add (m.zAxis.smul v.z)

structure Affine3A where
  matrix3 : M3
  translation : V3

/-- `glam::Affine3A::from_rotation_translation`. -/
noncomputable def Affine3A.from_rotation_translation (rotation : Quat)
    (translation : V3) : Affine3A :=
  ⟨M3.from_quat rotation, translation⟩

/-- `glam::Affine3A::inverse`. -/
noncomputable def Affine3A.inverse (a : Affine3A) : Affine3A :=
  let matrix3 := a.matrix3.inverse
  let translation := (matrix3.mulVec a.translation).neg
  ⟨matrix3, translation⟩

noncomputable def V4.smul (a : V4) (s : ℝ) : V4 :=
  ⟨a.x * s, a.y * s, a.z * s, a.w * s⟩

noncomputable def V4.add (a b : V4) : V4 :=
  ⟨a.x + b.x, a.y + b.y, a.z + b.z, a.w + b.w⟩

structure M4 where
  xAxis : V4
  yAxis : V4
  zAxis : V4
  wAxis : V4

noncomputable def M4.mulVec (m : M4) (v : V4) : V4 :=
  (((m.xAxis.smul v.x).add (m.yAxis.smul v.y)).add
    (m.zAxis.smul v.z)).add (m.wAxis.smul v.w)

/-- Column-by-column 4x4 matrix product (`glam::Mat4::mul`). -/
noncomputable def M4.mul (a b : M4) : M4 :=
  ⟨a.mulVec b.xAxis, a.mulVec b.yAxis, a.mulVec b.zAxis, a.mulVec b.wAxis⟩

/-- `glam::Mat4::from(Affine3A)`: extend the columns with 0 and the
translation with 1 (`Mat4 * Affine3A` multiplies through this). -/
noncomputable def M4.from_affine (a : Affine3A) : M4 :=
  ⟨⟨a.matrix3.xAxis.x, a.matrix3.xAxis.y, a.matrix3.xAxis.z, 0⟩,
   ⟨a.matrix3.yAxis.x, a.matrix3.yAxis.y, a.matrix3.yAxis.z, 0⟩,
   ⟨a.matrix3.zAxis.x, a.matrix3.zAxis.y, a.matrix3.zAxis.z, 0⟩,
   ⟨a.translation.x, a.translation.y, a.translation.z, 1⟩⟩

/-- `openxr_projection_to_glam` (`math.rs` lines 35-66), with
`z_near = 0.1` and `z_far = 100.0` and columns as in `from_cols_array`. -/
noncomputable def openxr_projection_to_glam (view : View) : M4 :=
  let zNear : ℝ := 0.1
  let zFar : ℝ := 100.0
  let tanLeft := Real.tan view.fov.angleLeft
  let tanRight := Real.tan view.fov.angleRight
  let tanDown := Real.tan view.fov.angleDown
  let tanUp := Real.tan view.fov.angleUp
  let tanWidth := tanRight - tanLeft
  let tanHeight := tanUp - tanDown
  let a11 := 2 / tanWidth
  let a22 := 2 / tanHeight
  let a31 := (tanRight + tanLeft) / tanWidth
  let a32 := (tanUp + tanDown) / tanHeight
  let a33 := -zFar / (zFar - zNear)
  let a43 := -(zFar * zNear) / (zFar - zNear)
  ⟨⟨a11, 0, 0, 0⟩, ⟨0, a22, 0, 0⟩, ⟨a31, a32, a33, -1⟩, ⟨0, 0, a43, 0⟩⟩

/-- `matrix_from_view` (`math.rs` lines 3-8): projection times the inverse of
the pose's rigid transform. -/
noncomputable def matrix_from_view (view : View) : M4 :=
  let p := openxr_pose_to_glam view.pose
  let view_matrix := (Affine3A.from_rotation_translation p.2 p.1).inverse
  let projection_matrix := openxr_projection_to_glam view
  projection_matrix.mul (M4.from_affine view_matrix)

/-- Follows the spec's words: the standard right-handed perspective
projection matrix for tangent half-angles `tanHalfFovX` / `tanHalfFovY` and
the given near and far planes (depth mapped to [0, 1], column-major). -/
noncomputable def standard_perspective_rh (tanHalfFovX tanHalfFovY zNear zFar : ℝ) :
    M4 :=
  ⟨⟨1 / tanHalfFovX, 0, 0, 0⟩,
   ⟨0, 1 / tanHalfFovY, 0, 0⟩,
   ⟨0, 0, -zFar / (zFar - zNear), -1⟩,
   ⟨0, 0, -(zFar * zNear) / (zFar - zNear), 0⟩⟩

/-! ## Helper lemmas -/

theorem identity_isNormalized : Quat.IDENTITY.isNormalized := by
  simp only [Quat.isNormalized, Quat.lengthSquared, Quat.IDENTITY]
  norm_num

theorem pose_to_glam_identity :
    openxr_pose_to_glam Posef.IDENTITY = (⟨0, 0, 0⟩, Quat.IDENTITY) := by
  have hlen : (Quat.mk 0 0 0 1).length = 1 := by
    show Real.sqrt ((0 : ℝ) * 0 + 0 * 0 + 0 * 0 + 1 * 1) = 1
    norm_num
  have hn : (Quat.mk 0 0 0 1).isNormalized := identity_isNormalized
  have hne : ¬(Quat.mk 0 0 0 1).length = 0 := by rw [hlen]; norm_num
  simp only [openxr_pose_to_glam, Posef.IDENTITY, Quat.IDENTITY, Quat.from_xyzw]
  rw [if_neg hne, if_pos hn]

theorem from_quat_identity :
    M3.from_quat Quat.IDENTITY = ⟨⟨1, 0, 0⟩, ⟨0, 1, 0⟩, ⟨0, 0, 1⟩⟩ := by
  simp only [M3.from_quat, Quat.IDENTITY]
  norm_num

theorem inverse_identity_affine :
    (Affine3A.from_rotation_translation Quat.IDENTITY ⟨0, 0, 0⟩).inverse =
      ⟨⟨⟨1, 0, 0⟩, ⟨0, 1, 0⟩, ⟨0, 0, 1⟩⟩, ⟨0, 0, 0⟩⟩ := by
  simp only [Affine3A.from_rotation_translation, Affine3A.inverse]
  rw [from_quat_identity]
  simp only [M3.inverse, M3.transpose, M3.mulVec, V3.cross, V3.dot, V3.smul,
    V3.add, V3.neg]
  norm_num

theorem mul_from_affine_identity (m : M4) :
    m.mul (M4.from_affine ⟨⟨⟨1, 0, 0⟩, ⟨0, 1, 0⟩, ⟨0, 0, 1⟩⟩, ⟨0, 0, 0⟩⟩) = m := by
  rcases m with ⟨⟨a0, a1, a2, a3⟩, ⟨b0, b1, b2, b3⟩, ⟨c0, c1, c2, c3⟩,
    ⟨d0, d1, d2, d3⟩⟩
  simp only [M4.mul, M4.from_affine, M4.mulVec, V4.smul, V4.add]
  norm_num

theorem two_div_sub_neg (t : ℝ) : 2 / (t - -t) = 1 / t := by
  rcases eq_or_ne t 0 with h | h
  · simp [h]
  · have h2 : t - -t = 2 * t := by ring
    rw [h2, div_eq_div_iff (mul_ne_zero two_ne_zero h) h]
    ring

theorem add_neg_div_self (t : ℝ) : (t + -t) / (t - -t) = 0 := by
  simp

/-! ## Helper lemmas (loop models) -/

/-- Invariant of the swapchain-handle reference count: the strong count is
exactly the caller's handle plus the live textures, and the underlying
swapchain is freed precisely when the strong count is zero. -/
theorem arcStateInvariant {n : Nat} {s : ArcState} (h : ReachableArc n s) :
    s.strongCount = (if s.callerHandleHeld then 1 else 0) + s.liveTextures ∧
    s.swapchainFreed = decide (s.strongCount = 0) := by
  induction h with
  | init => simp [initialArcState]
  | @step s t hr hstep ih =>
    obtain ⟨ih1, ih2⟩ := ih
    cases hstep with
    | dropTexture hlt =>
      have hpos : s.strongCount ≠ 0 := by
        cases hch : s.callerHandleHeld <;> rw [hch] at ih1 <;> simp at ih1 <;> omega
      have hfr : s.swapchainFreed = false := by
        rw [ih2]; simp [hpos]
      refine ⟨?_, ?_⟩
      · dsimp only
        cases hch : s.callerHandleHeld <;> rw [hch] at ih1 <;>
          simp at ih1 ⊢ <;> omega
      · dsimp only
        rw [hfr]
        simp
    | dropCallerHandle hch =>
      have hpos : s.strongCount ≠ 0 := by
        rw [ih1, hch]; simp
      have hfr : s.swapchainFreed = false := by
        rw [ih2]; simp [hpos]
      refine ⟨?_, ?_⟩
      · dsimp only
        rw [hch] at ih1
        simp at ih1 ⊢
        omega
      · dsimp only
        rw [hfr]
        simp

/-! ## Claim theorems -/

/-- C1: in every frame iteration with `should_render = false` the loop calls
frame begin and then immediately frame end with an empty layer list, acquires
no swapchain image and submits no command buffer; and in every iteration every
frame-begin call is matched 1:1 by a frame-end call. -/
theorem frame_skip_when_not_rendering :
    (∀ fs : FrameState, fs.shouldRender = false →
      render_frame fs = [Call.waitFrame, Call.frameBegin, Call.frameEnd 0] ∧
      (render_frame fs).count Call.acquireImage = 0 ∧
      queueSubmitCount (render_frame fs) = 0) ∧
    (∀ fs : FrameState,
      (render_frame fs).count Call.frameBegin = frameEndCount (render_frame fs) ∧
      (render_frame fs).count Call.frameBegin = 1) := by
  constructor
  · intro fs h
    unfold render_frame
    rw [h]
    decide
  · intro fs
    unfold render_frame
    cases h : fs.shouldRender <;> decide

theorem frame_skip_when_not_rendering_witness :
    render_frame ⟨0, false⟩ = [Call.waitFrame, Call.frameBegin, Call.frameEnd 0] ∧
    (render_frame ⟨0, false⟩).count Call.frameBegin =
      frameEndCount (render_frame ⟨0, false⟩) :=
  ⟨(frame_skip_when_not_rendering.1 ⟨0, false⟩ rfl).1,
   (frame_skip_when_not_rendering.2 ⟨0, false⟩).1⟩

/-- C3 counterexample: in a rendering iteration the swapchain mutex is in
fact released between `acquire_image` and `release_image` (the acquire uses a
temporary guard), and the mutex is locked twice, so a single lock acquisition
is not held continuously across the acquire → wait → submit → release
sequence. -/
theorem single_lock_span_counterexample :
    hasCallBetween (render_frame ⟨0, true⟩) (fun c => c == Call.unlockSwapchain)
      (firstIdx (fun c => c == Call.acquireImage) (render_frame ⟨0, true⟩))
      (firstIdx (fun c => c == Call.releaseImage) (render_frame ⟨0, true⟩)) = true ∧
    (render_frame ⟨0, true⟩).count Call.lockSwapchain = 2 := by decide

/-- C3 amended: each rendering iteration locks the swapchain mutex twice:
once around `acquire_image` alone (released before `wait_image`), and a
second acquisition held continuously across
`wait_image` → `queue.submit` → `release_image` (through frame end); the
mutex is not held at the end of the iteration. -/
theorem two_phase_swapchain_locking (fs : FrameState) (h : fs.shouldRender = true) :
    (render_frame fs).count Call.lockSwapchain = 2 ∧
    hasCallBetween (render_frame fs) (fun c => c == Call.unlockSwapchain)
      (firstIdx (fun c => c == Call.acquireImage) (render_frame fs))
      (firstIdx (fun c => c == Call.waitImage) (render_frame fs)) = true ∧
    heldThrough (render_frame fs)
      (firstIdx (fun c => c == Call.waitImage) (render_frame fs) - 1)
      (firstIdx (fun c => c == Call.frameEnd 1) (render_frame fs)) = true ∧
    lockDepthAfter (render_frame fs) (render_frame fs).length = 0 := by
  unfold render_frame
  rw [h]
  decide

theorem two_phase_swapchain_locking_witness :
    (render_frame ⟨0, true⟩).count Call.lockSwapchain = 2 ∧
    hasCallBetween (render_frame ⟨0, true⟩) (fun c => c == Call.unlockSwapchain)
      (firstIdx (fun c => c == Call.acquireImage) (render_frame ⟨0, true⟩))
      (firstIdx (fun c => c == Call.waitImage) (render_frame ⟨0, true⟩)) = true ∧
    heldThrough (render_frame ⟨0, true⟩)
      (firstIdx (fun c => c == Call.waitImage) (render_frame ⟨0, true⟩) - 1)
      (firstIdx (fun c => c == Call.frameEnd 1) (render_frame ⟨0, true⟩)) = true ∧
    lockDepthAfter (render_frame ⟨0, true⟩) (render_frame ⟨0, true⟩).length = 0 :=
  two_phase_swapchain_locking ⟨0, true⟩ rfl

/-- C9: every rendering frame iteration performs its calls in the fixed
order wait-frame → frame-begin → acquire-image → action poll → locate-views →
uniform upload → wait-image → queue-submit → release-image → frame-end, with
exactly one command-buffer submission. -/
theorem frame_call_order (fs : FrameState) (h : fs.shouldRender = true) :
    firstIdx (fun c => c == Call.waitFrame) (render_frame fs) <
      firstIdx (fun c => c == Call.frameBegin) (render_frame fs) ∧
    firstIdx (fun c => c == Call.frameBegin) (render_frame fs) <
      firstIdx (fun c => c == Call.acquireImage) (render_frame fs) ∧
    firstIdx (fun c => c == Call.acquireImage) (render_frame fs) <
      firstIdx (fun c => c == Call.syncActions) (render_frame fs) ∧
    firstIdx (fun c => c == Call.syncActions) (render_frame fs) <
      firstIdx (fun c => c == Call.locateViews) (render_frame fs) ∧
    firstIdx (fun c => c == Call.locateViews) (render_frame fs) <
      firstIdx (fun c => c == Call.writeUniformBuffer) (render_frame fs) ∧
    firstIdx (fun c => c == Call.writeUniformBuffer) (render_frame fs) <
      firstIdx (fun c => c == Call.waitImage) (render_frame fs) ∧
    firstIdx (fun c => c == Call.waitImage) (render_frame fs) <
      firstIdx (fun c => c == Call.queueSubmit 1) (render_frame fs) ∧
    firstIdx (fun c => c == Call.queueSubmit 1) (render_frame fs) <
      firstIdx (fun c => c == Call.releaseImage) (render_frame fs) ∧
    firstIdx (fun c => c == Call.releaseImage) (render_frame fs) <
      firstIdx (fun c => c == Call.frameEnd 1) (render_frame fs) ∧
    queueSubmitCount (render_frame fs) = 1 := by
  unfold render_frame
  rw [h]
  decide

theorem frame_call_order_witness :
    firstIdx (fun c => c == Call.waitFrame) (render_frame ⟨0, true⟩) <
      firstIdx (fun c => c == Call.frameBegin) (render_frame ⟨0, true⟩) ∧
    queueSubmitCount (render_frame ⟨0, true⟩) = 1 :=
  ⟨(frame_call_order ⟨0, true⟩ rfl).1,
   (frame_call_order ⟨0, true⟩ rfl).2.2.2.2.2.2.2.2.2⟩

/-- C5: when the interrupt flag is set, `request_exit` returning Ok continues
the loop, `ERROR_SESSION_NOT_RUNNING` terminates it normally, and any other
error aborts the process; and every other native-call failure inside the
frame loop aborts the process. -/
theorem request_exit_and_unwrap_semantics :
    ctrlcCheck (Except.ok ()) true = LoopAction.continueLoop ∧
    ctrlcCheck (Except.error XrErr.sessionNotRunning) true = LoopAction.breakLoop ∧
    (∀ code : Int,
      ctrlcCheck (Except.error (XrErr.other code)) true = LoopAction.abortProcess) ∧
    (∀ (o : FrameCalls) (e : XrErr), o.waitFrameRes = Except.error e →
      frameStage o = LoopAction.abortProcess) ∧
    (∀ (o : FrameCalls) (e : XrErr), o.frameBeginRes = Except.error e →
      frameStage o = LoopAction.abortProcess) ∧
    (∀ (o : FrameCalls) (fs : FrameState) (e : XrErr),
      o.waitFrameRes = Except.ok fs → fs.shouldRender = true →
      o.acquireRes = Except.error e → frameStage o = LoopAction.abortProcess) ∧
    (∀ (o : FrameCalls) (fs : FrameState) (e : XrErr),
      o.waitFrameRes = Except.ok fs → fs.shouldRender = true →
      o.syncActionsRes = Except.error e → frameStage o = LoopAction.abortProcess) ∧
    (∀ (o : FrameCalls) (fs : FrameState) (e : XrErr),
      o.waitFrameRes = Except.ok fs → fs.shouldRender = true →
      o.locateLeftRes = Except.error e → frameStage o = LoopAction.abortProcess) ∧
    (∀ (o : FrameCalls) (fs : FrameState) (e : XrErr),
      o.waitFrameRes = Except.ok fs → fs.shouldRender = true →
      o.locateRightRes = Except.error e → frameStage o = LoopAction.abortProcess) ∧
    (∀ (o : FrameCalls) (fs : FrameState) (e : XrErr),
      o.waitFrameRes = Except.ok fs → fs.shouldRender = true →
      o.locateViewsRes = Except.error e → frameStage o = LoopAction.abortProcess) ∧
    (∀ (o : FrameCalls) (fs : FrameState) (e : XrErr),
      o.waitFrameRes = Except.ok fs → fs.shouldRender = true →
      o.waitImageRes = Except.error e → frameStage o = LoopAction.abortProcess) ∧
    (∀ (o : FrameCalls) (fs : FrameState) (e : XrErr),
      o.waitFrameRes = Except.ok fs → fs.shouldRender = true →
      o.releaseRes = Except.error e → frameStage o = LoopAction.abortProcess) ∧
    (∀ (o : FrameCalls) (e : XrErr), o.frameEndRes = Except.error e →
      frameStage o = LoopAction.abortProcess) := by
  refine ⟨rfl, rfl, fun code => rfl, ?_, ?_, ?_, ?_, ?_, ?_, ?_, ?_, ?_, ?_⟩ <;>
    · intro o
      rcases o with ⟨wf, fb, aq, sy, ll, lr, lv, wi, rl, fe⟩
      intros
      subst_eqs
      simp only [frameStage]
      repeat' split
      all_goals simp_all

theorem request_exit_and_unwrap_semantics_witness :
    ctrlcCheck (Except.ok ()) true = LoopAction.continueLoop ∧
    frameStage ⟨Except.ok ⟨0, true⟩, Except.ok (),
      Except.error XrErr.sessionNotRunning, Except.ok (), Except.ok (),
      Except.ok (), Except.ok (), Except.ok (), Except.ok (),
      Except.ok ()⟩ = LoopAction.abortProcess :=
  ⟨request_exit_and_unwrap_semantics.1,
   request_exit_and_unwrap_semantics.2.2.2.2.2.1
     ⟨Except.ok ⟨0, true⟩, Except.ok (), Except.error XrErr.sessionNotRunning,
      Except.ok (), Except.ok (), Except.ok (), Except.ok (), Except.ok (),
      Except.ok (), Except.ok ()⟩ ⟨0, true⟩ XrErr.sessionNotRunning rfl rfl rfl⟩

/-- C6: the session-state transition table: READY → session begin and set the
running flag, STOPPING → session end and clear the flag, EXITING or
LOSS_PENDING → terminate the loop, any other state → no-op. -/
theorem session_state_transitions (beginRes endRes : Except XrErr Unit)
    (sessionRunning : Bool) (s : SessionState)
    (hb : beginRes = Except.ok ()) (he : endRes = Except.ok ()) :
    processEvent beginRes endRes sessionRunning
        (XrEvent.sessionStateChanged SessionState.READY) =
      ⟨true, LoopAction.continueLoop, [SessionCall.sessionBegin]⟩ ∧
    processEvent beginRes endRes sessionRunning
        (XrEvent.sessionStateChanged SessionState.STOPPING) =
      ⟨false, LoopAction.continueLoop, [SessionCall.sessionEnd]⟩ ∧
    processEvent beginRes endRes sessionRunning
        (XrEvent.sessionStateChanged SessionState.EXITING) =
      ⟨sessionRunning, LoopAction.breakLoop, []⟩ ∧
    processEvent beginRes endRes sessionRunning
        (XrEvent.sessionStateChanged SessionState.LOSS_PENDING) =
      ⟨sessionRunning, LoopAction.breakLoop, []⟩ ∧
    (s ≠ SessionState.READY → s ≠ SessionState.STOPPING →
      s ≠ SessionState.EXITING → s ≠ SessionState.LOSS_PENDING →
      processEvent beginRes endRes sessionRunning
          (XrEvent.sessionStateChanged s) =
        ⟨sessionRunning, LoopAction.continueLoop, []⟩) := by
  subst hb he
  refine ⟨?_, ?_, ?_, ?_, ?_⟩
  · simp [processEvent]
  · rw [processEvent]
    rw [if_neg (by decide), if_pos rfl]
  · rw [processEvent]
    rw [if_neg (by decide), if_neg (by decide), if_pos (by decide)]
  · rw [processEvent]
    rw [if_neg (by decide), if_neg (by decide), if_pos (by decide)]
  · intro h1 h2 h3 h4
    rw [processEvent]
    rw [if_neg h1, if_neg h2, if_neg (by simp [h3, h4])]

theorem session_state_transitions_witness :
    processEvent (Except.ok ()) (Except.ok ()) false
        (XrEvent.sessionStateChanged SessionState.READY) =
      ⟨true, LoopAction.continueLoop, [SessionCall.sessionBegin]⟩ ∧
    processEvent (Except.ok ()) (Except.ok ()) false
        (XrEvent.sessionStateChanged SessionState.VISIBLE) =
      ⟨false, LoopAction.continueLoop, []⟩ :=
  ⟨(session_state_transitions (Except.ok ()) (Except.ok ()) false
      SessionState.VISIBLE rfl rfl).1,
   (session_state_transitions (Except.ok ()) (Except.ok ()) false
      SessionState.VISIBLE rfl rfl).2.2.2.2
     (by decide) (by decide) (by decide) (by decide)⟩

/-- C4 counterexample: with `min_api_version_supported = 1.0.0` and
`max_api_version_supported = 1.1.0`, the target version 1.2.0 is above the
maximum (outside the claimed range), yet `create_instance` succeeds, because
the code only compares major versions against the maximum. -/
theorem version_check_counterexample :
    (GraphicsRequirements.mk ⟨1, 0, 0⟩ ⟨1, 1, 0⟩).maxApiVersionSupported.raw <
      vkTargetVersionXr.raw ∧
    (create_instance (GraphicsRequirements.mk ⟨1, 0, 0⟩ ⟨1, 1, 0⟩)).2 =
      Except.ok () := by
  constructor
  · decide
  · rfl

/-- C4 amended: instance creation first queries the runtime's graphics
requirements and fails fast (before any resource creation) iff the target
version is below `min_api_version_supported` or its major version exceeds the
major version of `max_api_version_supported`; target versions above the
maximum within the same major version are accepted. -/
theorem version_check_semantics (reqs : GraphicsRequirements) :
    (create_instance reqs).1.head? = some InstanceStep.queryGraphicsRequirements ∧
    (isErr (create_instance reqs).2 = true ↔
      (vkTargetVersionXr.raw < reqs.minApiVersionSupported.raw ∨
       reqs.maxApiVersionSupported.major < vkTargetVersionXr.major)) ∧
    (isErr (create_instance reqs).2 = true →
      (create_instance reqs).1 = [InstanceStep.queryGraphicsRequirements]) ∧
    (isErr (create_instance reqs).2 = false →
      (create_instance reqs).1 = [InstanceStep.queryGraphicsRequirements,
        InstanceStep.loadVulkanEntry, InstanceStep.createVulkanInstance,
        InstanceStep.wrapHalInstance]) := by
  unfold create_instance
  by_cases h : vkTargetVersionXr.raw < reqs.minApiVersionSupported.raw
      ∨ reqs.maxApiVersionSupported.major < vkTargetVersionXr.major
  · simp [h, isErr]
  · simp [h, isErr]

theorem version_check_semantics_witness :
    (create_instance (GraphicsRequirements.mk ⟨1, 0, 0⟩ ⟨1, 1, 0⟩)).1 =
      [InstanceStep.queryGraphicsRequirements, InstanceStep.loadVulkanEntry,
       InstanceStep.createVulkanInstance, InstanceStep.wrapHalInstance] ∧
    (create_instance (GraphicsRequirements.mk ⟨2, 0, 0⟩ ⟨3, 0, 0⟩)).1 =
      [InstanceStep.queryGraphicsRequirements] :=
  ⟨(version_check_semantics (GraphicsRequirements.mk ⟨1, 0, 0⟩ ⟨1, 1, 0⟩)).2.2.2
     (by decide),
   (version_check_semantics (GraphicsRequirements.mk ⟨2, 0, 0⟩ ⟨3, 0, 0⟩)).2.2.1
     (by decide)⟩

/-- C10: `create_swapchain` returns one `(Texture, TextureView)` pair per
enumerated runtime image in the same order; each texture wraps its image
without taking ownership, via a raw-handle import with a drop callback; each
view is a `D2Array` view with `array_layer_count` equal to the descriptor's
`view_count`; and the runtime swapchain is created with format
`R8G8B8A8_SRGB`, sample count 1, mip count 1, face count 1 and array size
equal to `view_count`. -/
theorem create_swapchain_shape (desc : SwapchainDescriptor)
    (images : List Nat) :
    (create_swapchain desc images).2.map (fun p => p.1.rawImage) = images ∧
    (create_swapchain desc images).2.length = images.length ∧
    (∀ p ∈ (create_swapchain desc images).2,
      p.1.hasDropCallback = true ∧ p.1.wgpuOwnsImage = false ∧
      p.2.dimension = some ViewDimension.d2Array ∧
      p.2.arrayLayerCount = some desc.viewCount) ∧
    (create_swapchain desc images).1.format = R8G8B8A8_SRGB ∧
    (create_swapchain desc images).1.sampleCount = 1 ∧
    (create_swapchain desc images).1.mipCount = 1 ∧
    (create_swapchain desc images).1.faceCount = 1 ∧
    (create_swapchain desc images).1.arraySize = desc.viewCount := by
  refine ⟨?_, ?_, ?_, rfl, rfl, rfl, rfl, rfl⟩
  · simp only [create_swapchain, create_swapchain_textures,
      create_swapchain_texture]
    induction images with
    | nil => rfl
    | cons a rest ih =>
      simp only [List.map_cons] at ih ⊢
      rw [ih]
  · simp [create_swapchain, create_swapchain_textures]
  · intro p hp
    simp only [create_swapchain, create_swapchain_textures, List.mem_map] at hp
    obtain ⟨img, _, rfl⟩ := hp
    exact ⟨rfl, rfl, rfl, rfl⟩

theorem create_swapchain_shape_witness :
    (create_swapchain ⟨4, 4, 2⟩ [10, 20]).2.map (fun p => p.1.rawImage) =
      [10, 20] ∧
    (create_swapchain ⟨4, 4, 2⟩ [10, 20]).1.arraySize = 2 ∧
    (create_swapchain_texture ⟨4, 4, 2⟩ 10,
      ({ dimension := some ViewDimension.d2Array, arrayLayerCount := some 2 } :
        TextureViewModel)).2.arrayLayerCount = some 2 :=
  ⟨(create_swapchain_shape ⟨4, 4, 2⟩ [10, 20]).1,
   (create_swapchain_shape ⟨4, 4, 2⟩ [10, 20]).2.2.2.2.2.2.2,
   ((create_swapchain_shape ⟨4, 4, 2⟩ [10, 20]).2.2.1
      (create_swapchain_texture ⟨4, 4, 2⟩ 10,
        { dimension := some ViewDimension.d2Array, arrayLayerCount := some 2 })
      (by decide)).2.2.2⟩

/-- C2: every wrapped texture is constructed with a drop callback holding a
clone of the shared swapchain handle (and wgpu does not take ownership of the
image); consequently, in every reachable state the handle's strong count is
nonzero while at least one wrapped texture exists, the underlying swapchain
is not freed while a texture (or the caller's handle) is alive, and
destroying all textures before the handle is released never double-frees the
foreign images. -/
theorem swapchain_texture_lifetime :
    (∀ (desc : SwapchainDescriptor) (images : List Nat),
      ∀ p ∈ (create_swapchain desc images).2,
        p.1.hasDropCallback = true ∧
        p.1.dropCallbackHoldsSwapchainHandle = true ∧
        p.1.wgpuOwnsImage = false) ∧
    (∀ (n : Nat) (s : ArcState), ReachableArc n s →
      (0 < s.liveTextures → 0 < s.strongCount) ∧
      (0 < s.liveTextures → s.swapchainFreed = false) ∧
      (s.callerHandleHeld = true → s.swapchainFreed = false)) := by
  constructor
  · intro desc images p hp
    simp only [create_swapchain, create_swapchain_textures, List.mem_map] at hp
    obtain ⟨img, _, rfl⟩ := hp
    exact ⟨rfl, rfl, rfl⟩
  · intro n s h
    obtain ⟨h1, h2⟩ := arcStateInvariant h
    have hcount : 0 < s.liveTextures → 0 < s.strongCount := by
      intro hl
      rw [h1]
      cases hch : s.callerHandleHeld <;> simp <;> omega
    refine ⟨hcount, ?_, ?_⟩
    · intro hl
      rw [h2]
      have := hcount hl
      simp
      omega
    · intro hch
      rw [h2]
      rw [h1, hch]
      simp

theorem swapchain_texture_lifetime_witness :
    (create_swapchain_texture ⟨4, 4, 2⟩ 10).dropCallbackHoldsSwapchainHandle
      = true ∧
    (0 < (initialArcState 2).liveTextures → 0 < (initialArcState 2).strongCount) ∧
    ((initialArcState 2).callerHandleHeld = true →
      (initialArcState 2).swapchainFreed = false) :=
  ⟨(swapchain_texture_lifetime.1 ⟨4, 4, 2⟩ [10, 20]
      (create_swapchain_texture ⟨4, 4, 2⟩ 10,
        { dimension := some ViewDimension.d2Array, arrayLayerCount := some 2 })
      (by decide)).2.1,
   (swapchain_texture_lifetime.2 2 (initialArcState 2) ReachableArc.init).1,
   (swapchain_texture_lifetime.2 2 (initialArcState 2) ReachableArc.init).2.2⟩

/-- C7: for every input pose whose orientation quaternion has length zero,
the pose conversion returns the identity quaternion as the rotation and the
pose's position as the translation. -/
theorem zero_quaternion_to_identity (pose : Posef)
    (h : pose.orientation.length = 0) :
    openxr_pose_to_glam pose = (pose.position, Quat.IDENTITY) := by
  have h0 : (Quat.from_xyzw pose.orientation.x pose.orientation.y
      pose.orientation.z pose.orientation.w).length = 0 := h
  simp only [openxr_pose_to_glam]
  rw [if_pos h0, if_pos identity_isNormalized]

theorem zero_quaternion_to_identity_witness :
    openxr_pose_to_glam ⟨⟨0, 0, 0, 0⟩, ⟨1, 2, 3⟩⟩ =
      ((⟨1, 2, 3⟩ : V3), Quat.IDENTITY) :=
  zero_quaternion_to_identity ⟨⟨0, 0, 0, 0⟩, ⟨1, 2, 3⟩⟩ (by
    simp [Quat.length, Quat.lengthSquared])

/-- C8: for every view with identity pose and symmetric field-of-view angles,
`matrix_from_view` equals the standard right-handed perspective projection
with near plane 0.1 and far plane 100; in particular its depth-mapping
entries are `a33 = -z_far / (z_far - z_near)` and
`a43 = -(z_far * z_near) / (z_far - z_near)` with those constants. -/
theorem view_projection_identity_pose (v : View)
    (hpose : v.pose = Posef.IDENTITY)
    (hx : v.fov.angleLeft = -v.fov.angleRight)
    (hy : v.fov.angleDown = -v.fov.angleUp) :
    matrix_from_view v =
      standard_perspective_rh (Real.tan v.fov.angleRight)
        (Real.tan v.fov.angleUp) 0.1 100 ∧
    (matrix_from_view v).zAxis.z = -(100 : ℝ) / (100 - 0.1) ∧
    (matrix_from_view v).wAxis.z = -(100 * 0.1 : ℝ) / (100 - 0.1) := by
  have hmain : matrix_from_view v =
      standard_perspective_rh (Real.tan v.fov.angleRight)
        (Real.tan v.fov.angleUp) 0.1 100 := by
    simp only [matrix_from_view, hpose, pose_to_glam_identity]
    rw [inverse_identity_affine, mul_from_affine_identity]
    simp only [openxr_projection_to_glam, standard_perspective_rh, hx, hy,
      Real.tan_neg]
    rw [two_div_sub_neg (Real.tan v.fov.angleRight),
      two_div_sub_neg (Real.tan v.fov.angleUp),
      add_neg_div_self (Real.tan v.fov.angleRight),
      add_neg_div_self (Real.tan v.fov.angleUp)]
    norm_num
  exact ⟨hmain, by rw [hmain]; simp [standard_perspective_rh],
    by rw [hmain]; simp [standard_perspective_rh]⟩

theorem view_projection_identity_pose_witness :
    matrix_from_view ⟨Posef.IDENTITY, ⟨-1, 1, 1, -1⟩⟩ =
      standard_perspective_rh (Real.tan 1) (Real.tan 1) 0.1 100 ∧
    (matrix_from_view ⟨Posef.IDENTITY, ⟨-1, 1, 1, -1⟩⟩).zAxis.z =
      -(100 : ℝ) / (100 - 0.1) ∧
    (matrix_from_view ⟨Posef.IDENTITY, ⟨-1, 1, 1, -1⟩⟩).wAxis.z =
      -(100 * 0.1 : ℝ) / (100 - 0.1) := by
  have h := view_projection_identity_pose ⟨Posef.IDENTITY, ⟨-1, 1, 1, -1⟩⟩
    rfl (by norm_num) (by norm_num)
  have htan : Real.tan ((⟨Posef.IDENTITY, ⟨-1, 1, 1, -1⟩⟩ : View).fov.angleRight)
      = Real.tan 1 := rfl
  exact ⟨by rw [← htan]; exact h.1, h.2.1, h.2.2⟩

end Indite
